import Mathlib

/-!
Shallow embedding of the fundraising-platform workflow layer
(organizer vetting, campaign lifecycle, donation reconciliation,
withdrawal payout) and proofs about its transition rules.

Entities live in a single store `St`; each service method is a function
`St → … → Except String St` that mirrors the source checks in order.
A transactional method either returns `Except.ok` carrying the fully
updated store (all component writes applied) or `Except.error` carrying
the thrown message (no partial state escapes), which is the sequential
meaning of the source commit-or-abort session blocks.
-/

namespace Hope

abbrev Id := Nat

/-- Monetary values (JS numbers in the source). -/
abbrev Money := Rat

inductive Role
  | donor
  | organizer
  | admin
deriving DecidableEq

inductive DonationStatus
  | pending
  | completed
  | failed
deriving DecidableEq

inductive DonationMethod
  | paypal
  | crypto
deriving DecidableEq

inductive WithdrawalStatus
  | pending
  | approved
  | rejected
  | paid
deriving DecidableEq

inductive ApplicationStatus
  | pending
  | approved
  | rejected
deriving DecidableEq

structure User where
  id : Id
  role : Role
  isOrganizerApproved : Bool
  isOrganizerRevoked : Bool
  revokedAt : Option Nat
  revokedBy : Option Id
  revocationReason : Option String
deriving DecidableEq

structure Campaign where
  id : Id
  owner : Id
  title : String
  description : Option String
  images : List String
  target : Money
  raised : Money
  isApproved : Bool
  isClosed : Bool
  closedReason : Option String
deriving DecidableEq

structure Donation where
  id : Id
  campaign : Id
  donor : Id
  amount : Money
  status : DonationStatus
deriving DecidableEq

structure WithdrawalRequest where
  id : Id
  organizer : Id
  campaign : Id
  amountRequested : Money
  status : WithdrawalStatus
  reviewedBy : Option Id
  adminMessage : Option String
  paidAt : Option Nat
  paymentReference : Option String
deriving DecidableEq

structure Application where
  id : Id
  user : Id
  organizationName : String
  description : String
  status : ApplicationStatus
  reviewedBy : Option Id
  reviewedAt : Option Nat
  rejectionReason : Option String
deriving DecidableEq

/-- The entity store, plus a logical clock standing in for `new Date()`. -/
structure St where
  users : List User
  campaigns : List Campaign
  donations : List Donation
  withdrawals : List WithdrawalRequest
  applications : List Application
  now : Nat
deriving DecidableEq

def St.findUser (s : St) (i : Id) : Option User :=
  s.users.find? (fun u => u.id == i)

def St.findCampaign (s : St) (i : Id) : Option Campaign :=
  s.campaigns.find? (fun c => c.id == i)

def St.findDonation (s : St) (i : Id) : Option Donation :=
  s.donations.find? (fun d => d.id == i)

def St.findWithdrawal (s : St) (i : Id) : Option WithdrawalRequest :=
  s.withdrawals.find? (fun w => w.id == i)

def St.findApplication (s : St) (i : Id) : Option Application :=
  s.applications.find? (fun a => a.id == i)

/-! ## Organizer vetting workflow (OrganizerService) -/

/-- Structural model of JavaScript `String.prototype.trim`: drop
whitespace from both ends. -/
def strTrim (s : String) : String :=
  ⟨((s.data.dropWhile Char.isWhitespace).reverse.dropWhile
      Char.isWhitespace).reverse⟩

/-- Split a character list at every occurrence of `c` (model of
`String.split`). -/
def splitChar (c : Char) : List Char → List (List Char)
  | [] => [[]]
  | x :: xs =>
    match splitChar c xs with
    | [] => [[x]]
    | h :: t => if x = c then [] :: h :: t else (x :: h) :: t

/-- The source pattern `message?.trim() || "default"`: a missing or
blank-trimming message falls back to the default text. -/
def messageOrDefault (msg : Option String) (dflt : String) : String :=
  match msg with
  | some m => if strTrim m = "" then dflt else strTrim m
  | none => dflt

structure SubmitApplicationData where
  organizationName : String
  description : String
deriving DecidableEq

def submitApplication (s : St) (userId : Id) (data : SubmitApplicationData)
    (freshId : Id) : Except String St :=
  if data.organizationName = "" ∨ data.description = "" then
    .error ("Organization name and description are required")
  else if (strTrim data.organizationName).length < 3 then
    .error ("Organization name must be at least 3 characters")
  else if (strTrim data.description).length < 20 then
    .error ("Description must be at least 20 characters")
  else
    match s.applications.find? (fun a => a.user == userId &&
        (a.status == ApplicationStatus.pending || a.status == ApplicationStatus.approved)) with
    | some _ => .error ("You already have a pending or approved application")
    | none =>
      .ok { s with applications := s.applications ++
        [{ id := freshId, user := userId,
           organizationName := strTrim data.organizationName,
           description := strTrim data.description,
           status := ApplicationStatus.pending,
           reviewedBy := none, reviewedAt := none, rejectionReason := none }] }

def approveApplication (s : St) (applicationId adminId : Id) : Except String St :=
  match s.findApplication applicationId with
  | none => .error ("Application not found")
  | some application =>
    if application.status ≠ ApplicationStatus.pending then
      .error ("Only pending applications can be approved")
    else
      .ok { s with
        applications := s.applications.map (fun a =>
          if a.id = applicationId then
            { a with status := ApplicationStatus.approved,
                     reviewedBy := some adminId, reviewedAt := some s.now }
          else a),
        users := s.users.map (fun u =>
          if u.id = application.user then
            { u with role := Role.organizer, isOrganizerApproved := true }
          else u) }

def rejectApplication (s : St) (applicationId adminId : Id)
    (rejectionReason : Option String) : Except String St :=
  match s.findApplication applicationId with
  | none => .error ("Application not found")
  | some application =>
    if application.status ≠ ApplicationStatus.pending then
      .error ("Only pending applications can be rejected")
    else
      .ok { s with applications := s.applications.map (fun a =>
        if a.id = applicationId then
          { a with status := ApplicationStatus.rejected,
                   reviewedBy := some adminId, reviewedAt := some s.now,
                   rejectionReason :=
                     some (messageOrDefault rejectionReason ("Application rejected by admin")) }
        else a) }

def revokeOrganizer (s : St) (organizerId adminId : Id)
    (revocationReason : String) : Except String St :=
  if (strTrim revocationReason).length < 10 then
    .error ("Revocation reason must be at least 10 characters")
  else
    match s.findUser organizerId with
    | none => .error ("User not found")
    | some user =>
      if user.role ≠ Role.organizer then
        .error ("User is not an organizer")
      else if user.isOrganizerRevoked then
        .error ("Organizer is already revoked")
      else
        .ok { s with
          users := s.users.map (fun u =>
            if u.id = organizerId then
              { u with isOrganizerRevoked := true, revokedAt := some s.now,
                       revokedBy := some adminId,
                       revocationReason := some (strTrim revocationReason) }
            else u),
          campaigns := s.campaigns.map (fun c =>
            if c.owner = organizerId ∧ c.isClosed = false then
              { c with isClosed := true,
                       closedReason := some ("Organizer account revoked") }
            else c),
          withdrawals := s.withdrawals.map (fun w =>
            if w.organizer = organizerId ∧ w.status = WithdrawalStatus.pending then
              { w with status := WithdrawalStatus.rejected,
                       adminMessage := some ("Organizer account has been revoked"),
                       reviewedBy := some adminId }
            else w) }

def reinstateOrganizer (s : St) (organizerId adminId : Id) : Except String St :=
  match s.findUser organizerId with
  | none => .error ("User not found")
  | some user =>
    if user.role ≠ Role.organizer then
      .error ("User is not an organizer")
    else if user.isOrganizerRevoked = false then
      .error ("Organizer is not revoked")
    else
      .ok { s with users := s.users.map (fun u =>
        if u.id = organizerId then
          { u with isOrganizerRevoked := false, revokedAt := none,
                   revokedBy := none, revocationReason := none }
        else u) }

/-! ## Campaign lifecycle workflow (CampaignService) -/

structure CreateCampaignData where
  title : String
  description : Option String
  images : List String
  target : Money
deriving DecidableEq

structure UpdateCampaignData where
  title : Option String
  description : Option String
  images : Option (List String)
  target : Option Money
deriving DecidableEq

def verifyCampaignOwnership (s : St) (campaignId userId : Id)
    (userRole : Role) : Except String Campaign :=
  match s.findCampaign campaignId with
  | none => .error ("Campaign not found")
  | some campaign =>
    if userRole ≠ Role.admin ∧ campaign.owner ≠ userId then
      .error ("You don\x27t have permission to perform this action")
    else .ok campaign

def createCampaign (s : St) (organizerId : Id) (data : CreateCampaignData)
    (freshId : Id) : Except String St :=
  if data.title = "" ∨ data.target = 0 then
    .error ("Title and target amount are required")
  else if data.target ≤ 0 then
    .error ("Target amount must be greater than 0")
  else
    match s.findUser organizerId with
    | none => .error ("Only approved organizers can create campaigns")
    | some user =>
      if user.role ≠ Role.organizer ∨ user.isOrganizerApproved = false then
        .error ("Only approved organizers can create campaigns")
      else
        .ok { s with campaigns := s.campaigns ++
          [{ id := freshId, owner := organizerId, title := data.title,
             description := data.description, images := data.images,
             target := data.target, raised := 0,
             isApproved := false, isClosed := false, closedReason := none }] }

def updateCampaign (s : St) (campaignId userId : Id) (userRole : Role)
    (updates : UpdateCampaignData) : Except String St :=
  match verifyCampaignOwnership s campaignId userId userRole with
  | .error e => .error e
  | .ok _ =>
    if updates.title.any (fun t => strTrim t == "") then
      .error ("Title must be a non-empty string")
    else if updates.target.any (fun t => decide (t ≤ 0)) then
      .error ("Target must be a positive number")
    else
      .ok { s with campaigns := s.campaigns.map (fun c =>
        if c.id = campaignId then
          { c with title := (updates.title.map strTrim).getD c.title,
                   description := match updates.description with
                     | some d => some d
                     | none => c.description,
                   images := updates.images.getD c.images,
                   target := updates.target.getD c.target }
        else c) }

def approveCampaign (s : St) (campaignId : Id) : Except String St :=
  match s.findCampaign campaignId with
  | none => .error ("Campaign not found")
  | some _ =>
    .ok { s with campaigns := s.campaigns.map (fun c =>
      if c.id = campaignId then { c with isApproved := true } else c) }

def closeCampaign (s : St) (campaignId userId : Id) (userRole : Role) :
    Except String St :=
  match verifyCampaignOwnership s campaignId userId userRole with
  | .error e => .error e
  | .ok campaign =>
    if campaign.isClosed then .error ("Campaign is already closed")
    else
      .ok { s with campaigns := s.campaigns.map (fun c =>
        if c.id = campaignId then { c with isClosed := true } else c) }

def deleteCampaign (s : St) (campaignId userId : Id) (userRole : Role) :
    Except String St :=
  match verifyCampaignOwnership s campaignId userId userRole with
  | .error e => .error e
  | .ok campaign =>
    if campaign.raised > 0 then
      .error ("Cannot delete campaign with existing donations")
    else
      .ok { s with campaigns := s.campaigns.filter (fun c => c.id != campaignId) }

def getCampaignById (s : St) (campaignId : Id) (userId : Option Id)
    (userRole : Option Role) : Except String Campaign :=
  match s.findCampaign campaignId with
  | none => .error ("Campaign not found")
  | some campaign =>
    if campaign.isApproved = false ∧ userRole ≠ some Role.admin ∧
        (userId = none ∨ userId ≠ some campaign.owner) then
      .error ("Campaign not found")
    else .ok campaign

/-! ## Donation reconciliation workflow (DonationService) -/

structure CreateDonationData where
  campaign : Id
  amount : Money
  method : DonationMethod
  donorEmail : String
deriving DecidableEq

/-- Bool form of the source email regex: one nonempty whitespace-free
local part, one at-sign, and a domain containing an inner dot. -/
def emailOk (e : String) : Bool :=
  match splitChar '@' e.data with
  | [localPart, domainPart] =>
    !localPart.isEmpty && e.data.all (fun c => !c.isWhitespace) &&
      ((domainPart.drop 1).dropLast.contains '.')
  | _ => false

def createDonation (s : St) (donorId : Id) (data : CreateDonationData)
    (freshId : Id) : Except String St :=
  if data.amount = 0 ∨ data.donorEmail = "" then
    .error ("Campaign, amount, method, and donor email are required")
  else if data.amount < (1 : Money) / 100 then
    .error ("Amount must be at least 0.01")
  else if emailOk data.donorEmail = false then
    .error ("Invalid email format")
  else
    match s.findCampaign data.campaign with
    | none => .error ("Campaign not found")
    | some campaignDoc =>
      if campaignDoc.isApproved = false then
        .error ("Campaign is not approved for donations")
      else if campaignDoc.isClosed then
        .error ("Campaign is closed and no longer accepting donations")
      else
        .ok { s with donations := s.donations ++
          [{ id := freshId, campaign := data.campaign, donor := donorId,
             amount := data.amount, status := DonationStatus.pending }] }

def updateDonationStatus (s : St) (donationId : Id) (status : DonationStatus) :
    Except String St :=
  match s.findDonation donationId with
  | none => .error ("Donation not found")
  | some donation =>
    .ok { s with
      donations := s.donations.map (fun d =>
        if d.id = donationId then { d with status := status } else d),
      campaigns :=
        if status = DonationStatus.completed ∧
            donation.status ≠ DonationStatus.completed then
          s.campaigns.map (fun c =>
            if c.id = donation.campaign then
              { c with raised := c.raised + donation.amount }
            else c)
        else if status = DonationStatus.failed ∧
            donation.status = DonationStatus.completed then
          s.campaigns.map (fun c =>
            if c.id = donation.campaign then
              { c with raised := max 0 (c.raised - donation.amount) }
            else c)
        else s.campaigns }

/-! ## Withdrawal payout workflow (WithdrawalService) -/

structure CreateWithdrawalData where
  campaign : Id
  amountRequested : Money
  payoutMethod : String
deriving DecidableEq

def createWithdrawalRequest (s : St) (organizerId : Id)
    (data : CreateWithdrawalData) (freshId : Id) : Except String St :=
  if data.amountRequested = 0 ∨ data.payoutMethod = "" then
    .error ("Campaign, amount requested, and payout method are required")
  else if data.amountRequested ≤ 0 then
    .error ("Amount requested must be a positive number")
  else
    match s.findCampaign data.campaign with
    | none => .error ("Campaign not found")
    | some campaignDoc =>
      if campaignDoc.owner ≠ organizerId then
        .error ("You don\x27t own this campaign")
      else if campaignDoc.isApproved = false then
        .error ("Campaign must be approved before requesting withdrawal")
      else if data.amountRequested > campaignDoc.raised then
        .error ("Requested amount exceeds available funds")
      else
        match s.withdrawals.find? (fun w => w.campaign == data.campaign &&
            (w.status == WithdrawalStatus.pending ||
             w.status == WithdrawalStatus.approved)) with
        | some _ =>
          .error ("You already have a pending or approved withdrawal request for this campaign")
        | none =>
          .ok { s with withdrawals := s.withdrawals ++
            [{ id := freshId, organizer := organizerId,
               campaign := data.campaign,
               amountRequested := data.amountRequested,
               status := WithdrawalStatus.pending,
               reviewedBy := none, adminMessage := none,
               paidAt := none, paymentReference := none }] }

def approveWithdrawal (s : St) (withdrawalId adminId : Id) : Except String St :=
  match s.findWithdrawal withdrawalId with
  | none => .error ("Withdrawal request not found")
  | some withdrawal =>
    if withdrawal.status ≠ WithdrawalStatus.pending then
      .error ("Only pending requests can be approved")
    else
      .ok { s with withdrawals := s.withdrawals.map (fun w =>
        if w.id = withdrawalId then
          { w with status := WithdrawalStatus.approved, reviewedBy := some adminId }
        else w) }

def rejectWithdrawal (s : St) (withdrawalId adminId : Id)
    (adminMessage : Option String) : Except String St :=
  match s.findWithdrawal withdrawalId with
  | none => .error ("Withdrawal request not found")
  | some withdrawal =>
    if withdrawal.status ≠ WithdrawalStatus.pending then
      .error ("Only pending requests can be rejected")
    else
      .ok { s with withdrawals := s.withdrawals.map (fun w =>
        if w.id = withdrawalId then
          { w with status := WithdrawalStatus.rejected,
                   reviewedBy := some adminId,
                   adminMessage :=
                     some (messageOrDefault adminMessage ("Withdrawal request rejected")) }
        else w) }

def markAsPaid (s : St) (withdrawalId adminId : Id)
    (paymentReference : Option String) : Except String St :=
  match s.findWithdrawal withdrawalId with
  | none => .error ("Withdrawal request not found")
  | some withdrawal =>
    if withdrawal.status ≠ WithdrawalStatus.approved then
      .error ("Only approved requests can be marked as paid")
    else
      .ok { s with
        withdrawals := s.withdrawals.map (fun w =>
          if w.id = withdrawalId then
            { w with status := WithdrawalStatus.paid,
                     paidAt := some s.now,
                     paymentReference := paymentReference.map strTrim,
                     reviewedBy := some adminId }
          else w),
        campaigns := s.campaigns.map (fun c =>
          if c.id = withdrawal.campaign then
            { c with raised := max 0 (c.raised - withdrawal.amountRequested) }
          else c) }

/-! ## General list lemmas -/

theorem find?_split {α : Type} (p : α → Bool) :
    ∀ (l : List α) (a : α), l.find? p = some a →
      ∃ l1 l2, l = l1 ++ a :: l2 ∧ p a = true ∧ ∀ b ∈ l1, p b = false := by
  intro l
  induction l with
  | nil => intro a h; simp [List.find?] at h
  | cons x t ih =>
    intro a h
    by_cases hx : p x = true
    · rw [List.find?_cons_of_pos _ hx] at h
      injection h with h
      subst h
      exact ⟨[], t, by simp, hx, by simp⟩
    · rw [List.find?_cons_of_neg _ (by simpa using hx)] at h
      obtain ⟨l1, l2, rfl, hpa, hl1⟩ := ih a h
      refine ⟨x :: l1, l2, rfl, hpa, ?_⟩
      intro b hb
      rcases List.mem_cons.mp hb with rfl | hb
      · simpa using hx
      · exact hl1 b hb

theorem forall2_map_self {α : Type} (g : α → α) (R : α → α → Prop) :
    ∀ l : List α, (∀ x ∈ l, R x (g x)) → List.Forall₂ R l (l.map g) := by
  intro l
  induction l with
  | nil => intro _; simp [List.Forall₂.nil]
  | cons x t ih =>
    intro h
    exact List.Forall₂.cons (h x (by simp)) (ih fun y hy => h y (by simp [hy]))

theorem map_eq_self_of {α : Type} (f : α → α) :
    ∀ l : List α, (∀ x ∈ l, f x = x) → l.map f = l := by
  intro l
  induction l with
  | nil => intro _; rfl
  | cons x t ih =>
    intro h
    simp only [List.map_cons]
    rw [h x (by simp), ih fun y hy => h y (by simp [hy])]

theorem find?_map_comm {α : Type} (p : α → Bool) (g : α → α)
    (hpg : ∀ x, p (g x) = p x) :
    ∀ l : List α, (l.map g).find? p = (l.find? p).map g := by
  intro l
  induction l with
  | nil => rfl
  | cons x t ih =>
    by_cases hx : p x = true
    · simp only [List.map_cons]
      rw [List.find?_cons_of_pos _ (by rw [hpg]; exact hx),
          List.find?_cons_of_pos _ hx]
      rfl
    · simp only [List.map_cons]
      rw [List.find?_cons_of_neg _ (by rw [hpg]; simpa using hx),
          List.find?_cons_of_neg _ (by simpa using hx)]
      exact ih

/-! ## Inversion lemmas: what a successful call implies -/

theorem markAsPaid_ok (s s' : St) (wid aid : Id) (ref : Option String)
    (h : markAsPaid s wid aid ref = Except.ok s') :
    ∃ w, s.findWithdrawal wid = some w ∧ w.status = WithdrawalStatus.approved ∧
      s' = { s with
        withdrawals := s.withdrawals.map (fun x =>
          if x.id = wid then
            { x with status := WithdrawalStatus.paid, paidAt := some s.now,
                     paymentReference := ref.map strTrim,
                     reviewedBy := some aid }
          else x),
        campaigns := s.campaigns.map (fun c =>
          if c.id = w.campaign then
            { c with raised := max 0 (c.raised - w.amountRequested) }
          else c) } := by
  unfold markAsPaid at h
  split at h
  · exact absurd h (by simp)
  next w hw =>
    split at h
    · exact absurd h (by simp)
    next hst =>
      simp only [Except.ok.injEq] at h
      exact ⟨w, hw, not_not.mp hst, h.symm⟩

theorem submitApplication_ok (s s' : St) (userId : Id)
    (data : SubmitApplicationData) (freshId : Id)
    (h : submitApplication s userId data freshId = Except.ok s') :
    3 ≤ (strTrim data.organizationName).length ∧ 20 ≤ (strTrim data.description).length ∧
    s.applications.find? (fun a => a.user == userId &&
      (a.status == ApplicationStatus.pending ||
       a.status == ApplicationStatus.approved)) = none ∧
    s' = { s with applications := s.applications ++
      [{ id := freshId, user := userId,
         organizationName := strTrim data.organizationName,
         description := strTrim data.description,
         status := ApplicationStatus.pending,
         reviewedBy := none, reviewedAt := none, rejectionReason := none }] } := by
  unfold submitApplication at h
  split at h
  · exact absurd h (by simp)
  split at h
  · exact absurd h (by simp)
  next hname =>
    split at h
    · exact absurd h (by simp)
    next hdesc =>
      split at h
      · exact absurd h (by simp)
      next hfind =>
        simp only [Except.ok.injEq] at h
        exact ⟨by omega, by omega, hfind, h.symm⟩

theorem approveApplication_ok (s s' : St) (applicationId adminId : Id)
    (h : approveApplication s applicationId adminId = Except.ok s') :
    ∃ a, s.findApplication applicationId = some a ∧
      a.status = ApplicationStatus.pending ∧
      s' = { s with
        applications := s.applications.map (fun x =>
          if x.id = applicationId then
            { x with status := ApplicationStatus.approved,
                     reviewedBy := some adminId, reviewedAt := some s.now }
          else x),
        users := s.users.map (fun u =>
          if u.id = a.user then
            { u with role := Role.organizer, isOrganizerApproved := true }
          else u) } := by
  unfold approveApplication at h
  split at h
  · exact absurd h (by simp)
  next a ha =>
    split at h
    · exact absurd h (by simp)
    next hst =>
      simp only [Except.ok.injEq] at h
      exact ⟨a, ha, not_not.mp hst, h.symm⟩

theorem rejectApplication_ok (s s' : St) (applicationId adminId : Id)
    (reason : Option String)
    (h : rejectApplication s applicationId adminId reason = Except.ok s') :
    ∃ a, s.findApplication applicationId = some a ∧
      a.status = ApplicationStatus.pending ∧
      s' = { s with applications := s.applications.map (fun x =>
        if x.id = applicationId then
          { x with status := ApplicationStatus.rejected,
                   reviewedBy := some adminId, reviewedAt := some s.now,
                   rejectionReason :=
                     some (messageOrDefault reason ("Application rejected by admin")) }
        else x) } := by
  unfold rejectApplication at h
  split at h
  · exact absurd h (by simp)
  next a ha =>
    split at h
    · exact absurd h (by simp)
    next hst =>
      simp only [Except.ok.injEq] at h
      exact ⟨a, ha, not_not.mp hst, h.symm⟩

theorem revokeOrganizer_ok (s s' : St) (organizerId adminId : Id) (reason : String)
    (h : revokeOrganizer s organizerId adminId reason = Except.ok s') :
    10 ≤ (strTrim reason).length ∧
    (∃ u, s.findUser organizerId = some u ∧ u.role = Role.organizer ∧
      u.isOrganizerRevoked = false) ∧
    s' = { s with
      users := s.users.map (fun u =>
        if u.id = organizerId then
          { u with isOrganizerRevoked := true, revokedAt := some s.now,
                   revokedBy := some adminId,
                   revocationReason := some (strTrim reason) }
        else u),
      campaigns := s.campaigns.map (fun c =>
        if c.owner = organizerId ∧ c.isClosed = false then
          { c with isClosed := true,
                   closedReason := some ("Organizer account revoked") }
        else c),
      withdrawals := s.withdrawals.map (fun w =>
        if w.organizer = organizerId ∧ w.status = WithdrawalStatus.pending then
          { w with status := WithdrawalStatus.rejected,
                   adminMessage := some ("Organizer account has been revoked"),
                   reviewedBy := some adminId }
        else w) } := by
  unfold revokeOrganizer at h
  split at h
  · exact absurd h (by simp)
  next hlen =>
    split at h
    · exact absurd h (by simp)
    next u hu =>
      split at h
      · exact absurd h (by simp)
      next hrole =>
        split at h
        · exact absurd h (by simp)
        next hrev =>
          simp only [Except.ok.injEq] at h
          exact ⟨by omega, ⟨u, hu, not_not.mp hrole, by simpa using hrev⟩, h.symm⟩

theorem reinstateOrganizer_ok (s s' : St) (organizerId adminId : Id)
    (h : reinstateOrganizer s organizerId adminId = Except.ok s') :
    (∃ u, s.findUser organizerId = some u ∧ u.role = Role.organizer ∧
      u.isOrganizerRevoked = true) ∧
    s' = { s with users := s.users.map (fun u =>
      if u.id = organizerId then
        { u with isOrganizerRevoked := false, revokedAt := none,
                 revokedBy := none, revocationReason := none }
      else u) } := by
  unfold reinstateOrganizer at h
  split at h
  · exact absurd h (by simp)
  next u hu =>
    split at h
    · exact absurd h (by simp)
    next hrole =>
      split at h
      · exact absurd h (by simp)
      next hrev =>
        simp only [Except.ok.injEq] at h
        refine ⟨⟨u, hu, not_not.mp hrole, ?_⟩, h.symm⟩
        revert hrev
        cases u.isOrganizerRevoked <;> simp

theorem createCampaign_ok (s s' : St) (organizerId : Id)
    (data : CreateCampaignData) (freshId : Id)
    (h : createCampaign s organizerId data freshId = Except.ok s') :
    0 < data.target ∧
    (∃ u, s.findUser organizerId = some u ∧ u.role = Role.organizer ∧
      u.isOrganizerApproved = true) ∧
    s' = { s with campaigns := s.campaigns ++
      [{ id := freshId, owner := organizerId, title := data.title,
         description := data.description, images := data.images,
         target := data.target, raised := 0,
         isApproved := false, isClosed := false, closedReason := none }] } := by
  unfold createCampaign at h
  split at h
  · exact absurd h (by simp)
  next hreq =>
    split at h
    · exact absurd h (by simp)
    next hpos =>
      split at h
      · exact absurd h (by simp)
      next u hu =>
        split at h
        · exact absurd h (by simp)
        next helig =>
          simp only [Except.ok.injEq] at h
          push_neg at helig
          refine ⟨by push_neg at hpos; exact hpos, ⟨u, hu, helig.1, ?_⟩, h.symm⟩
          have := helig.2
          revert this
          cases u.isOrganizerApproved <;> simp

theorem updateCampaign_ok (s s' : St) (campaignId userId : Id) (userRole : Role)
    (updates : UpdateCampaignData)
    (h : updateCampaign s campaignId userId userRole updates = Except.ok s') :
    s' = { s with campaigns := s.campaigns.map (fun c =>
      if c.id = campaignId then
        { c with title := (updates.title.map strTrim).getD c.title,
                 description := match updates.description with
                   | some d => some d
                   | none => c.description,
                 images := updates.images.getD c.images,
                 target := updates.target.getD c.target }
      else c) } := by
  unfold updateCampaign at h
  split at h
  · exact absurd h (by simp)
  split at h
  · exact absurd h (by simp)
  split at h
  · exact absurd h (by simp)
  simp only [Except.ok.injEq] at h
  exact h.symm

theorem approveCampaign_ok (s s' : St) (campaignId : Id)
    (h : approveCampaign s campaignId = Except.ok s') :
    s' = { s with campaigns := s.campaigns.map (fun c =>
      if c.id = campaignId then { c with isApproved := true } else c) } := by
  unfold approveCampaign at h
  split at h
  · exact absurd h (by simp)
  simp only [Except.ok.injEq] at h
  exact h.symm

theorem closeCampaign_ok (s s' : St) (campaignId userId : Id) (userRole : Role)
    (h : closeCampaign s campaignId userId userRole = Except.ok s') :
    s' = { s with campaigns := s.campaigns.map (fun c =>
      if c.id = campaignId then { c with isClosed := true } else c) } := by
  unfold closeCampaign at h
  split at h
  · exact absurd h (by simp)
  split at h
  · exact absurd h (by simp)
  simp only [Except.ok.injEq] at h
  exact h.symm

theorem deleteCampaign_ok (s s' : St) (campaignId userId : Id) (userRole : Role)
    (h : deleteCampaign s campaignId userId userRole = Except.ok s') :
    s' = { s with campaigns := s.campaigns.filter (fun c => c.id != campaignId) } := by
  unfold deleteCampaign at h
  split at h
  · exact absurd h (by simp)
  split at h
  · exact absurd h (by simp)
  simp only [Except.ok.injEq] at h
  exact h.symm

theorem createDonation_ok (s s' : St) (donorId : Id) (data : CreateDonationData)
    (freshId : Id)
    (h : createDonation s donorId data freshId = Except.ok s') :
    (1 : Money) / 100 ≤ data.amount ∧
    (∃ c, s.findCampaign data.campaign = some c ∧ c.isApproved = true ∧
      c.isClosed = false) ∧
    s' = { s with donations := s.donations ++
      [{ id := freshId, campaign := data.campaign, donor := donorId,
         amount := data.amount, status := DonationStatus.pending }] } := by
  unfold createDonation at h
  split at h
  · exact absurd h (by simp)
  split at h
  next hamt => exact absurd h (by simp)
  next hamt =>
    split at h
    · exact absurd h (by simp)
    split at h
    · exact absurd h (by simp)
    next c hc =>
      split at h
      · exact absurd h (by simp)
      next happ =>
        split at h
        · exact absurd h (by simp)
        next hclosed =>
          simp only [Except.ok.injEq] at h
          refine ⟨by push_neg at hamt; exact hamt, ⟨c, hc, ?_, ?_⟩, h.symm⟩
          · revert happ; cases c.isApproved <;> simp
          · revert hclosed; cases c.isClosed <;> simp

theorem updateDonationStatus_ok (s s' : St) (donationId : Id)
    (status : DonationStatus)
    (h : updateDonationStatus s donationId status = Except.ok s') :
    ∃ d, s.findDonation donationId = some d ∧
      s' = { s with
        donations := s.donations.map (fun x =>
          if x.id = donationId then { x with status := status } else x),
        campaigns :=
          if status = DonationStatus.completed ∧
              d.status ≠ DonationStatus.completed then
            s.campaigns.map (fun c =>
              if c.id = d.campaign then
                { c with raised := c.raised + d.amount }
              else c)
          else if status = DonationStatus.failed ∧
              d.status = DonationStatus.completed then
            s.campaigns.map (fun c =>
              if c.id = d.campaign then
                { c with raised := max 0 (c.raised - d.amount) }
              else c)
          else s.campaigns } := by
  unfold updateDonationStatus at h
  split at h
  · exact absurd h (by simp)
  next d hd =>
    simp only [Except.ok.injEq] at h
    exact ⟨d, hd, h.symm⟩

theorem createWithdrawalRequest_ok (s s' : St) (organizerId : Id)
    (data : CreateWithdrawalData) (freshId : Id)
    (h : createWithdrawalRequest s organizerId data freshId = Except.ok s') :
    0 < data.amountRequested ∧
    (∃ c, s.findCampaign data.campaign = some c ∧ c.owner = organizerId ∧
      c.isApproved = true ∧ data.amountRequested ≤ c.raised) ∧
    s.withdrawals.find? (fun w => w.campaign == data.campaign &&
      (w.status == WithdrawalStatus.pending ||
       w.status == WithdrawalStatus.approved)) = none ∧
    s' = { s with withdrawals := s.withdrawals ++
      [{ id := freshId, organizer := organizerId, campaign := data.campaign,
         amountRequested := data.amountRequested,
         status := WithdrawalStatus.pending,
         reviewedBy := none, adminMessage := none,
         paidAt := none, paymentReference := none }] } := by
  unfold createWithdrawalRequest at h
  split at h
  · exact absurd h (by simp)
  split at h
  next hpos => exact absurd h (by simp)
  next hpos =>
    split at h
    · exact absurd h (by simp)
    next c hc =>
      split at h
      · exact absurd h (by simp)
      next hown =>
        split at h
        · exact absurd h (by simp)
        next happ =>
          split at h
          · exact absurd h (by simp)
          next hraised =>
            split at h
            · exact absurd h (by simp)
            next hfind =>
              simp only [Except.ok.injEq] at h
              push_neg at hpos
              push_neg at hraised
              refine ⟨hpos, ⟨c, hc, not_not.mp hown, ?_, hraised⟩, hfind, h.symm⟩
              revert happ; cases c.isApproved <;> simp

theorem approveWithdrawal_ok (s s' : St) (withdrawalId adminId : Id)
    (h : approveWithdrawal s withdrawalId adminId = Except.ok s') :
    ∃ w, s.findWithdrawal withdrawalId = some w ∧
      w.status = WithdrawalStatus.pending ∧
      s' = { s with withdrawals := s.withdrawals.map (fun x =>
        if x.id = withdrawalId then
          { x with status := WithdrawalStatus.approved, reviewedBy := some adminId }
        else x) } := by
  unfold approveWithdrawal at h
  split at h
  · exact absurd h (by simp)
  next w hw =>
    split at h
    · exact absurd h (by simp)
    next hst =>
      simp only [Except.ok.injEq] at h
      exact ⟨w, hw, not_not.mp hst, h.symm⟩

theorem rejectWithdrawal_ok (s s' : St) (withdrawalId adminId : Id)
    (msg : Option String)
    (h : rejectWithdrawal s withdrawalId adminId msg = Except.ok s') :
    ∃ w, s.findWithdrawal withdrawalId = some w ∧
      w.status = WithdrawalStatus.pending ∧
      s' = { s with withdrawals := s.withdrawals.map (fun x =>
        if x.id = withdrawalId then
          { x with status := WithdrawalStatus.rejected,
                   reviewedBy := some adminId,
                   adminMessage :=
                     some (messageOrDefault msg ("Withdrawal request rejected")) }
        else x) } := by
  unfold rejectWithdrawal at h
  split at h
  · exact absurd h (by simp)
  next w hw =>
    split at h
    · exact absurd h (by simp)
    next hst =>
      simp only [Except.ok.injEq] at h
      exact ⟨w, hw, not_not.mp hst, h.symm⟩

/-! ## Workflow step relation and the money invariant -/

/-- One successful workflow operation, any operation of the four services. -/
inductive Step : St → St → Prop
  | submitApp (s s' : St) (userId : Id) (data : SubmitApplicationData) (freshId : Id) :
      submitApplication s userId data freshId = Except.ok s' → Step s s'
  | approveApp (s s' : St) (applicationId adminId : Id) :
      approveApplication s applicationId adminId = Except.ok s' → Step s s'
  | rejectApp (s s' : St) (applicationId adminId : Id) (reason : Option String) :
      rejectApplication s applicationId adminId reason = Except.ok s' → Step s s'
  | revokeOrg (s s' : St) (organizerId adminId : Id) (reason : String) :
      revokeOrganizer s organizerId adminId reason = Except.ok s' → Step s s'
  | reinstateOrg (s s' : St) (organizerId adminId : Id) :
      reinstateOrganizer s organizerId adminId = Except.ok s' → Step s s'
  | createCamp (s s' : St) (organizerId : Id) (data : CreateCampaignData) (freshId : Id) :
      createCampaign s organizerId data freshId = Except.ok s' → Step s s'
  | updateCamp (s s' : St) (campaignId userId : Id) (userRole : Role) (updates : UpdateCampaignData) :
      updateCampaign s campaignId userId userRole updates = Except.ok s' → Step s s'
  | approveCamp (s s' : St) (campaignId : Id) :
      approveCampaign s campaignId = Except.ok s' → Step s s'
  | closeCamp (s s' : St) (campaignId userId : Id) (userRole : Role) :
      closeCampaign s campaignId userId userRole = Except.ok s' → Step s s'
  | deleteCamp (s s' : St) (campaignId userId : Id) (userRole : Role) :
      deleteCampaign s campaignId userId userRole = Except.ok s' → Step s s'
  | createDon (s s' : St) (donorId : Id) (data : CreateDonationData) (freshId : Id) :
      createDonation s donorId data freshId = Except.ok s' → Step s s'
  | updateDonStatus (s s' : St) (donationId : Id) (status : DonationStatus) :
      updateDonationStatus s donationId status = Except.ok s' → Step s s'
  | createWd (s s' : St) (organizerId : Id) (data : CreateWithdrawalData) (freshId : Id) :
      createWithdrawalRequest s organizerId data freshId = Except.ok s' → Step s s'
  | approveWd (s s' : St) (withdrawalId adminId : Id) :
      approveWithdrawal s withdrawalId adminId = Except.ok s' → Step s s'
  | rejectWd (s s' : St) (withdrawalId adminId : Id) (msg : Option String) :
      rejectWithdrawal s withdrawalId adminId msg = Except.ok s' → Step s s'
  | markPaidWd (s s' : St) (withdrawalId adminId : Id) (ref : Option String) :
      markAsPaid s withdrawalId adminId ref = Except.ok s' → Step s s'

/-- Every campaign balance is nonnegative and every donation amount is
nonnegative (the latter holds at creation and is needed to keep the former). -/
def MoneyInv (s : St) : Prop :=
  (∀ c ∈ s.campaigns, 0 ≤ c.raised) ∧ (∀ d ∈ s.donations, 0 ≤ d.amount)

theorem nonneg_map {α : Type} (f : α → Money) (g : α → α) (l : List α)
    (hg : ∀ x ∈ l, 0 ≤ f x → 0 ≤ f (g x)) (h : ∀ x ∈ l, 0 ≤ f x) :
    ∀ y ∈ l.map g, 0 ≤ f y := by
  intro y hy
  obtain ⟨x, hx, rfl⟩ := List.mem_map.mp hy
  exact hg x hx (h x hx)

/-- C5: `raised ≥ 0` (together with nonnegative donation amounts) is
preserved by every successful workflow operation: `markAsPaid` and the
failed-after-completed branch of `updateDonationStatus` floor the debit at
0, completion credits a nonnegative amount, and no other operation lowers
a balance. -/
theorem moneyInv_preserved (s s' : St) (hstep : Step s s') (hinv : MoneyInv s) :
    MoneyInv s' := by
  obtain ⟨hr, ha⟩ := hinv
  cases hstep with
  | submitApp userId data freshId h =>
    obtain ⟨-, -, -, rfl⟩ := submitApplication_ok _ _ _ _ _ h
    exact ⟨hr, ha⟩
  | approveApp applicationId adminId h =>
    obtain ⟨a, -, -, rfl⟩ := approveApplication_ok _ _ _ _ h
    exact ⟨hr, ha⟩
  | rejectApp applicationId adminId reason h =>
    obtain ⟨a, -, -, rfl⟩ := rejectApplication_ok _ _ _ _ _ h
    exact ⟨hr, ha⟩
  | revokeOrg organizerId adminId reason h =>
    obtain ⟨-, -, rfl⟩ := revokeOrganizer_ok _ _ _ _ _ h
    refine ⟨?_, ha⟩
    refine nonneg_map Campaign.raised _ _ ?_ hr
    intro c hc h0
    split <;> exact h0
  | reinstateOrg organizerId adminId h =>
    obtain ⟨-, rfl⟩ := reinstateOrganizer_ok _ _ _ _ h
    exact ⟨hr, ha⟩
  | createCamp organizerId data freshId h =>
    obtain ⟨-, -, rfl⟩ := createCampaign_ok _ _ _ _ _ h
    refine ⟨?_, ha⟩
    intro c hc
    rcases List.mem_append.mp hc with hc | hc
    · exact hr c hc
    · rw [List.mem_singleton.mp hc]
  | updateCamp campaignId userId userRole updates h =>
    have := updateCampaign_ok _ _ _ _ _ _ h
    subst this
    refine ⟨?_, ha⟩
    refine nonneg_map Campaign.raised _ _ ?_ hr
    intro c hc h0
    split <;> exact h0
  | approveCamp campaignId h =>
    have := approveCampaign_ok _ _ _ h
    subst this
    refine ⟨?_, ha⟩
    refine nonneg_map Campaign.raised _ _ ?_ hr
    intro c hc h0
    split <;> exact h0
  | closeCamp campaignId userId userRole h =>
    have := closeCampaign_ok _ _ _ _ _ h
    subst this
    refine ⟨?_, ha⟩
    refine nonneg_map Campaign.raised _ _ ?_ hr
    intro c hc h0
    split <;> exact h0
  | deleteCamp campaignId userId userRole h =>
    have := deleteCampaign_ok _ _ _ _ _ h
    subst this
    refine ⟨?_, ha⟩
    intro c hc
    exact hr c (List.mem_of_mem_filter hc)
  | createDon donorId data freshId h =>
    obtain ⟨hamt, -, rfl⟩ := createDonation_ok _ _ _ _ _ h
    refine ⟨hr, ?_⟩
    intro d hd
    rcases List.mem_append.mp hd with hd | hd
    · exact ha d hd
    · rw [List.mem_singleton.mp hd]
      calc (0 : Money) ≤ 1 / 100 := by norm_num
        _ ≤ data.amount := hamt
  | updateDonStatus donationId status h =>
    obtain ⟨d, hd, rfl⟩ := updateDonationStatus_ok _ _ _ _ h
    have hdmem : d ∈ s.donations := by
      have := List.mem_of_find?_eq_some hd
      exact this
    have hdamt : 0 ≤ d.amount := ha d hdmem
    refine ⟨?_, ?_⟩
    · dsimp only
      split
      · refine nonneg_map Campaign.raised _ _ ?_ hr
        intro c hc h0
        dsimp only
        split
        · exact add_nonneg h0 hdamt
        · exact h0
      · split
        · refine nonneg_map Campaign.raised _ _ ?_ hr
          intro c hc h0
          dsimp only
          split
          · exact le_max_left 0 _
          · exact h0
        · exact hr
    · dsimp only
      refine nonneg_map Donation.amount _ _ ?_ ha
      intro x hx h0
      dsimp only
      split <;> exact h0
  | createWd organizerId data freshId h =>
    obtain ⟨-, -, -, rfl⟩ := createWithdrawalRequest_ok _ _ _ _ _ h
    exact ⟨hr, ha⟩
  | approveWd withdrawalId adminId h =>
    obtain ⟨w, -, -, rfl⟩ := approveWithdrawal_ok _ _ _ _ h
    exact ⟨hr, ha⟩
  | rejectWd withdrawalId adminId msg h =>
    obtain ⟨w, -, -, rfl⟩ := rejectWithdrawal_ok _ _ _ _ _ h
    exact ⟨hr, ha⟩
  | markPaidWd withdrawalId adminId ref h =>
    obtain ⟨w, -, -, rfl⟩ := markAsPaid_ok _ _ _ _ _ h
    refine ⟨?_, ha⟩
    refine nonneg_map Campaign.raised _ _ ?_ hr
    intro c hc h0
    split
    · exact le_max_left 0 _
    · exact h0

/-- Pointwise description of a conditional bulk update (`updateMany` /
`findByIdAndUpdate`): every element either matches the filter and is
rewritten by `e`, or is left untouched. -/
theorem forall2_ite_update {α : Type} (P : α → Prop) [DecidablePred P]
    (e : α → α) (l : List α) :
    List.Forall₂ (fun x x' => if P x then x' = e x else x' = x) l
      (l.map (fun x => if P x then e x else x)) := by
  refine forall2_map_self _ _ _ ?_
  intro x _
  dsimp only
  split
  next => rfl
  next => rfl

/-! ## C1: revokeOrganizer is an atomic three-way cascade -/

/-- C1: a successful `revokeOrganizer` requires an existing
non-revoked organizer and a reason of trimmed length ≥ 10, and the single
committed result state simultaneously carries all three effects: the user
is marked revoked with `revokedAt`/`revokedBy`/`revocationReason`, every
previously open campaign of the organizer is closed with
`closedReason = "Organizer account revoked"`, and every pending withdrawal
of the organizer is rejected with the fixed admin message and
`reviewedBy = admin`; donations and applications are untouched. On failure
the operation returns only an error, so no partial effect is visible. -/
theorem revokeOrganizer_atomic (s s' : St) (organizerId adminId : Id)
    (reason : String)
    (h : revokeOrganizer s organizerId adminId reason = Except.ok s') :
    10 ≤ (strTrim reason).length ∧
    (∃ u, s.findUser organizerId = some u ∧ u.role = Role.organizer ∧
      u.isOrganizerRevoked = false) ∧
    List.Forall₂ (fun u u' =>
      if u.id = organizerId then
        u' = { u with isOrganizerRevoked := true, revokedAt := some s.now,
                      revokedBy := some adminId,
                      revocationReason := some (strTrim reason) }
      else u' = u) s.users s'.users ∧
    List.Forall₂ (fun c c' =>
      if c.owner = organizerId ∧ c.isClosed = false then
        c' = { c with isClosed := true,
                      closedReason := some ("Organizer account revoked") }
      else c' = c) s.campaigns s'.campaigns ∧
    List.Forall₂ (fun w w' =>
      if w.organizer = organizerId ∧ w.status = WithdrawalStatus.pending then
        w' = { w with status := WithdrawalStatus.rejected,
                      adminMessage := some ("Organizer account has been revoked"),
                      reviewedBy := some adminId }
      else w' = w) s.withdrawals s'.withdrawals ∧
    s'.donations = s.donations ∧ s'.applications = s.applications := by
  obtain ⟨hlen, hpre, rfl⟩ := revokeOrganizer_ok _ _ _ _ _ h
  exact ⟨hlen, hpre, forall2_ite_update _ _ _, forall2_ite_update _ _ _,
    forall2_ite_update _ _ _, rfl, rfl⟩

def c1reason : String := "Misuse of donated funds"

def c1s0 : St :=
  { users := [{ id := 1, role := Role.organizer, isOrganizerApproved := true,
                isOrganizerRevoked := false, revokedAt := none,
                revokedBy := none, revocationReason := none }],
    campaigns := [{ id := 4, owner := 1, title := "Well", description := none,
                    images := [], target := 100, raised := 25,
                    isApproved := true, isClosed := false, closedReason := none }],
    donations := [],
    withdrawals := [{ id := 7, organizer := 1, campaign := 4,
                      amountRequested := 10, status := WithdrawalStatus.pending,
                      reviewedBy := none, adminMessage := none,
                      paidAt := none, paymentReference := none }],
    applications := [], now := 5 }

def c1s1 : St :=
  { c1s0 with
    users := [{ id := 1, role := Role.organizer, isOrganizerApproved := true,
                isOrganizerRevoked := true, revokedAt := some 5,
                revokedBy := some 2, revocationReason := some (strTrim c1reason) }],
    campaigns := [{ id := 4, owner := 1, title := "Well", description := none,
                    images := [], target := 100, raised := 25,
                    isApproved := true, isClosed := true,
                    closedReason := some ("Organizer account revoked") }],
    withdrawals := [{ id := 7, organizer := 1, campaign := 4,
                      amountRequested := 10, status := WithdrawalStatus.rejected,
                      reviewedBy := some 2,
                      adminMessage := some ("Organizer account has been revoked"),
                      paidAt := none, paymentReference := none }] }

theorem revokeOrganizer_atomic_witness :
    revokeOrganizer c1s0 1 2 c1reason = Except.ok c1s1 ∧
    c1s1.donations = c1s0.donations ∧ c1s1.applications = c1s0.applications := by
  have h : revokeOrganizer c1s0 1 2 c1reason = Except.ok c1s1 := by rfl
  exact ⟨h, (revokeOrganizer_atomic c1s0 c1s1 1 2 c1reason h).2.2.2.2.2⟩

/-! ## C2: markAsPaid requires approved status and debits atomically -/

/-- C2: `markAsPaid` succeeds only from `approved` (any other status of an
existing request yields the state error and, the result being only an
error, no state change), and in the single committed success state the
request is `paid` (with `paidAt`, trimmed `paymentReference`,
`reviewedBy = admin`) while the owning campaign is simultaneously debited
by `amountRequested` floored at 0 — the request is never paid without the
campaign debit in the same state. -/
theorem markAsPaid_spec (s : St) (withdrawalId adminId : Id) (ref : Option String) :
    (∀ s', markAsPaid s withdrawalId adminId ref = Except.ok s' →
      ∃ w, s.findWithdrawal withdrawalId = some w ∧
        w.status = WithdrawalStatus.approved ∧
        List.Forall₂ (fun x x' =>
          if x.id = withdrawalId then
            x' = { x with status := WithdrawalStatus.paid, paidAt := some s.now,
                          paymentReference := ref.map strTrim,
                          reviewedBy := some adminId }
          else x' = x) s.withdrawals s'.withdrawals ∧
        List.Forall₂ (fun c c' =>
          if c.id = w.campaign then
            c' = { c with raised := max 0 (c.raised - w.amountRequested) }
          else c' = c) s.campaigns s'.campaigns ∧
        s'.donations = s.donations ∧ s'.users = s.users ∧
        s'.applications = s.applications) ∧
    (∀ w, s.findWithdrawal withdrawalId = some w →
      w.status ≠ WithdrawalStatus.approved →
      markAsPaid s withdrawalId adminId ref =
        Except.error ("Only approved requests can be marked as paid")) := by
  constructor
  · intro s' h
    obtain ⟨w, hw, hst, rfl⟩ := markAsPaid_ok _ _ _ _ _ h
    exact ⟨w, hw, hst, forall2_ite_update _ _ _, forall2_ite_update _ _ _,
      rfl, rfl, rfl⟩
  · intro w hw hst
    unfold markAsPaid
    rw [hw]
    simp [hst]

def c2w : WithdrawalRequest :=
  { id := 3, organizer := 1, campaign := 4, amountRequested := 10,
    status := WithdrawalStatus.pending, reviewedBy := none,
    adminMessage := none, paidAt := none, paymentReference := none }

def c2st : St :=
  { users := [], campaigns := [], donations := [], withdrawals := [c2w],
    applications := [], now := 0 }

theorem markAsPaid_spec_witness :
    markAsPaid c2st 3 2 none =
      Except.error ("Only approved requests can be marked as paid") :=
  (markAsPaid_spec c2st 3 2 none).2 c2w (by rfl) (by decide)

/-! ## C6: approveApplication requires pending and promotes atomically -/

/-- C6: `approveApplication` succeeds only from `pending` (other statuses
of an existing application yield the state error and no state), and the
single committed success state simultaneously marks the application
`approved` (with `reviewedBy`/`reviewedAt`) and the owning user
`role = organizer`, `isOrganizerApproved = true`; no intermediate state
with only one of the two writes exists. -/
theorem approveApplication_spec (s : St) (applicationId adminId : Id) :
    (∀ s', approveApplication s applicationId adminId = Except.ok s' →
      ∃ a, s.findApplication applicationId = some a ∧
        a.status = ApplicationStatus.pending ∧
        List.Forall₂ (fun x x' =>
          if x.id = applicationId then
            x' = { x with status := ApplicationStatus.approved,
                          reviewedBy := some adminId, reviewedAt := some s.now }
          else x' = x) s.applications s'.applications ∧
        List.Forall₂ (fun u u' =>
          if u.id = a.user then
            u' = { u with role := Role.organizer, isOrganizerApproved := true }
          else u' = u) s.users s'.users ∧
        s'.campaigns = s.campaigns ∧ s'.donations = s.donations ∧
        s'.withdrawals = s.withdrawals) ∧
    (∀ a, s.findApplication applicationId = some a →
      a.status ≠ ApplicationStatus.pending →
      approveApplication s applicationId adminId =
        Except.error ("Only pending applications can be approved")) := by
  constructor
  · intro s' h
    obtain ⟨a, ha, hst, rfl⟩ := approveApplication_ok _ _ _ _ h
    exact ⟨a, ha, hst, forall2_ite_update _ _ _, forall2_ite_update _ _ _,
      rfl, rfl, rfl⟩
  · intro a ha hst
    unfold approveApplication
    rw [ha]
    simp [hst]

def c6a : Application :=
  { id := 9, user := 1, organizationName := "Helpers Inc",
    description := "We help people in need daily",
    status := ApplicationStatus.approved, reviewedBy := some 2,
    reviewedAt := some 1, rejectionReason := none }

def c6st : St :=
  { users := [], campaigns := [], donations := [], withdrawals := [],
    applications := [c6a], now := 3 }

theorem approveApplication_spec_witness :
    approveApplication c6st 9 2 =
      Except.error ("Only pending applications can be approved") :=
  (approveApplication_spec c6st 9 2).2 c6a (by rfl) (by decide)

/-! ## C9: reinstateOrganizer only clears revocation fields -/

/-- C9: a successful `reinstateOrganizer` requires a currently revoked
organizer, clears exactly the four revocation fields on that user, and
changes nothing else: campaigns (so anything closed by the revocation
cascade stays closed with its `closedReason`), withdrawals, donations and
applications are exactly as before. -/
theorem reinstateOrganizer_frame (s s' : St) (organizerId adminId : Id)
    (h : reinstateOrganizer s organizerId adminId = Except.ok s') :
    (∃ u, s.findUser organizerId = some u ∧ u.role = Role.organizer ∧
      u.isOrganizerRevoked = true) ∧
    s'.campaigns = s.campaigns ∧ s'.withdrawals = s.withdrawals ∧
    s'.donations = s.donations ∧ s'.applications = s.applications ∧
    List.Forall₂ (fun u u' =>
      if u.id = organizerId then
        u' = { u with isOrganizerRevoked := false, revokedAt := none,
                      revokedBy := none, revocationReason := none }
      else u' = u) s.users s'.users := by
  obtain ⟨hpre, rfl⟩ := reinstateOrganizer_ok _ _ _ _ h
  exact ⟨hpre, rfl, rfl, rfl, rfl, forall2_ite_update _ _ _⟩

def c9s0 : St :=
  { users := [{ id := 1, role := Role.organizer, isOrganizerApproved := true,
                isOrganizerRevoked := true, revokedAt := some 5,
                revokedBy := some 2,
                revocationReason := some ("Misuse of donated funds") }],
    campaigns := [{ id := 4, owner := 1, title := "Well", description := none,
                    images := [], target := 100, raised := 25,
                    isApproved := true, isClosed := true,
                    closedReason := some ("Organizer account revoked") }],
    donations := [],
    withdrawals := [{ id := 7, organizer := 1, campaign := 4,
                      amountRequested := 10, status := WithdrawalStatus.rejected,
                      reviewedBy := some 2,
                      adminMessage := some ("Organizer account has been revoked"),
                      paidAt := none, paymentReference := none }],
    applications := [], now := 9 }

def c9s1 : St :=
  { c9s0 with
    users := [{ id := 1, role := Role.organizer, isOrganizerApproved := true,
                isOrganizerRevoked := false, revokedAt := none,
                revokedBy := none, revocationReason := none }] }

theorem reinstateOrganizer_frame_witness :
    c9s1.campaigns = c9s0.campaigns ∧ c9s1.withdrawals = c9s0.withdrawals :=
  ⟨(reinstateOrganizer_frame c9s0 c9s1 1 2 (by rfl)).2.1,
   (reinstateOrganizer_frame c9s0 c9s1 1 2 (by rfl)).2.2.1⟩

/-! ## C10: getCampaignById hides unapproved campaigns -/

/-- C10: for a caller who is neither admin nor the owner, an existing
unapproved campaign produces exactly the same "Campaign not found" error
as an id matching no campaign at all, so the two cases are
indistinguishable to such a caller. -/
theorem getCampaignById_hides_unapproved (s : St) (campaignId : Id)
    (userId : Option Id) (userRole : Option Role) :
    (∀ c, s.findCampaign campaignId = some c → c.isApproved = false →
      userRole ≠ some Role.admin →
      (∀ uid, userId = some uid → uid ≠ c.owner) →
      getCampaignById s campaignId userId userRole =
        Except.error ("Campaign not found")) ∧
    (s.findCampaign campaignId = none →
      getCampaignById s campaignId userId userRole =
        Except.error ("Campaign not found")) := by
  constructor
  · intro c hc happ hrole huid
    unfold getCampaignById
    rw [hc]
    have hcond : c.isApproved = false ∧ userRole ≠ some Role.admin ∧
        (userId = none ∨ userId ≠ some c.owner) := by
      refine ⟨happ, hrole, ?_⟩
      cases userId with
      | none => exact Or.inl rfl
      | some uid => exact Or.inr (by simpa using huid uid rfl)
    simp only [hc]
    rw [if_pos hcond]
  · intro hc
    unfold getCampaignById
    simp [hc]

def c10camp : Campaign :=
  { id := 1, owner := 2, title := "Hidden", description := none, images := [],
    target := 50, raised := 0, isApproved := false, isClosed := false,
    closedReason := none }

def c10st : St :=
  { users := [], campaigns := [c10camp], donations := [], withdrawals := [],
    applications := [], now := 0 }

theorem getCampaignById_hides_unapproved_witness :
    getCampaignById c10st 1 (some 5) (some Role.donor) =
      Except.error ("Campaign not found") ∧
    getCampaignById c10st 99 (some 5) (some Role.donor) =
      Except.error ("Campaign not found") :=
  ⟨(getCampaignById_hides_unapproved c10st 1 (some 5) (some Role.donor)).1
      c10camp (by rfl) (by rfl) (by decide)
      (by intro uid h; injection h with h; subst h; decide),
   (getCampaignById_hides_unapproved c10st 99 (some 5) (some Role.donor)).2
      (by rfl)⟩

/-! ## C5 witness state -/

def c5s0 : St :=
  { users := [],
    campaigns := [{ id := 1, owner := 1, title := "t", description := none,
                    images := [], target := 10, raised := 3,
                    isApproved := false, isClosed := false, closedReason := none }],
    donations := [], withdrawals := [], applications := [], now := 0 }

def c5s1 : St :=
  { c5s0 with
    campaigns := [{ id := 1, owner := 1, title := "t", description := none,
                    images := [], target := 10, raised := 3,
                    isApproved := true, isClosed := false, closedReason := none }] }

theorem moneyInv_preserved_witness : Step c5s0 c5s1 ∧ MoneyInv c5s1 := by
  have hs : approveCampaign c5s0 1 = Except.ok c5s1 := by rfl
  have hstep : Step c5s0 c5s1 := Step.approveCamp c5s0 c5s1 1 hs
  exact ⟨hstep, moneyInv_preserved c5s0 c5s1 hstep ⟨by decide, by decide⟩⟩

/-! ## C4: completing an already-completed donation is a no-op on raised -/

/-- C4: calling `updateDonationStatus(id, completed)` on a donation that
is already `completed` succeeds but leaves every campaign (in particular
its `raised`) unchanged, and leaves the donation `completed`, so repeated
calls credit the amount zero further times: the credit fires only on a
transition into `completed` from a non-completed status. -/
theorem updateDonationStatus_completed_idempotent (s : St) (donationId : Id)
    (d : Donation) (hfind : s.findDonation donationId = some d)
    (hstatus : d.status = DonationStatus.completed) :
    ∃ s', updateDonationStatus s donationId DonationStatus.completed =
        Except.ok s' ∧
      s'.campaigns = s.campaigns ∧
      s'.findDonation donationId =
        some { d with status := DonationStatus.completed } ∧
      s'.users = s.users ∧ s'.withdrawals = s.withdrawals ∧
      s'.applications = s.applications := by
  have hcond1 : ¬(DonationStatus.completed = DonationStatus.completed ∧
      d.status ≠ DonationStatus.completed) := by simp [hstatus]
  have hcond2 : ¬(DonationStatus.completed = DonationStatus.failed ∧
      d.status = DonationStatus.completed) := by simp
  have hfind' : s.donations.find? (fun x => x.id == donationId) = some d := hfind
  have hid : (d.id == donationId) = true := by
    simpa using List.find?_some hfind'
  refine ⟨{ s with donations := s.donations.map (fun x =>
      if x.id = donationId then { x with status := DonationStatus.completed }
      else x) }, ?_, rfl, ?_, rfl, rfl, rfl⟩
  · unfold updateDonationStatus
    simp only [hfind]
    simp [hstatus]
  · show (s.donations.map (fun x =>
        if x.id = donationId then { x with status := DonationStatus.completed }
        else x)).find? (fun x => x.id == donationId) = _
    rw [find?_map_comm _ _ ?hpg s.donations]
    case hpg =>
      intro x
      dsimp only
      split <;> rfl
    rw [hfind']
    simp only [Option.map_some']
    rw [if_pos (by simpa using hid)]

def c4d : Donation :=
  { id := 1, campaign := 1, donor := 2, amount := 5,
    status := DonationStatus.completed }

def c4s0 : St :=
  { users := [],
    campaigns := [{ id := 1, owner := 3, title := "t", description := none,
                    images := [], target := 10, raised := 5,
                    isApproved := true, isClosed := false, closedReason := none }],
    donations := [c4d], withdrawals := [], applications := [], now := 0 }

theorem updateDonationStatus_completed_idempotent_witness :
    updateDonationStatus c4s0 1 DonationStatus.completed = Except.ok c4s0 ∧
    c4s0.campaigns = c4s0.campaigns := by
  obtain ⟨s', h1, h2, -, -, -, -⟩ :=
    updateDonationStatus_completed_idempotent c4s0 1 c4d (by rfl) rfl
  have h1' : updateDonationStatus c4s0 1 DonationStatus.completed =
      Except.ok c4s0 := by rfl
  rw [h1'] at h1
  injection h1 with he
  subst he
  exact ⟨h1', h2⟩

/-! ## C8: withdrawal creation preconditions and the one-outstanding rule -/

/-- The source query filter `status ∈ [pending, approved]`. -/
def isOutstanding (w : WithdrawalRequest) : Bool :=
  w.status == WithdrawalStatus.pending || w.status == WithdrawalStatus.approved

/-- At most one withdrawal request per campaign is pending or approved. -/
def outstandingOk (s : St) : Prop :=
  ∀ cid ∈ s.withdrawals.map WithdrawalRequest.campaign,
    (s.withdrawals.filter
      (fun w => w.campaign == cid && isOutstanding w)).length ≤ 1

/-- C8: a successful `createWithdrawalRequest` implies the caller owns the
approved target campaign, `0 < amountRequested ≤ raised`, and no request
for that campaign was pending or approved; when one is, the call fails
with the conflict error; success appends a fresh `pending` request and
preserves the at-most-one-outstanding-request-per-campaign invariant. -/
theorem createWithdrawalRequest_spec (s : St) (organizerId : Id)
    (data : CreateWithdrawalData) (freshId : Id) :
    (∀ s', createWithdrawalRequest s organizerId data freshId = Except.ok s' →
      0 < data.amountRequested ∧
      (∃ c, s.findCampaign data.campaign = some c ∧ c.owner = organizerId ∧
        c.isApproved = true ∧ data.amountRequested ≤ c.raised) ∧
      (∀ w ∈ s.withdrawals, w.campaign = data.campaign →
        w.status ≠ WithdrawalStatus.pending ∧
        w.status ≠ WithdrawalStatus.approved) ∧
      s'.withdrawals = s.withdrawals ++
        [{ id := freshId, organizer := organizerId, campaign := data.campaign,
           amountRequested := data.amountRequested,
           status := WithdrawalStatus.pending, reviewedBy := none,
           adminMessage := none, paidAt := none, paymentReference := none }] ∧
      s'.campaigns = s.campaigns ∧ s'.users = s.users ∧
      s'.donations = s.donations ∧ s'.applications = s.applications) ∧
    (∀ c w, s.findCampaign data.campaign = some c → c.owner = organizerId →
      c.isApproved = true → 0 < data.amountRequested →
      data.payoutMethod ≠ "" → data.amountRequested ≤ c.raised →
      w ∈ s.withdrawals → w.campaign = data.campaign →
      (w.status = WithdrawalStatus.pending ∨
       w.status = WithdrawalStatus.approved) →
      createWithdrawalRequest s organizerId data freshId = Except.error
        ("You already have a pending or approved withdrawal request for this campaign")) ∧
    (outstandingOk s → ∀ s',
      createWithdrawalRequest s organizerId data freshId = Except.ok s' →
      outstandingOk s') := by
  refine ⟨?_, ?_, ?_⟩
  · intro s' h
    obtain ⟨hpos, hcamp, hfind, rfl⟩ := createWithdrawalRequest_ok _ _ _ _ _ h
    refine ⟨hpos, hcamp, ?_, rfl, rfl, rfl, rfl, rfl⟩
    intro w hw hwc
    have := List.find?_eq_none.mp hfind w hw
    simp [hwc, not_or] at this
    exact this
  · intro c w hc hcown happ hpos hpm hle hwmem hwcamp hwstat
    unfold createWithdrawalRequest
    rw [if_neg (not_or.mpr ⟨hpos.ne', hpm⟩), if_neg (not_le.mpr hpos)]
    simp only [hc]
    rw [if_neg (not_not_intro hcown), if_neg (by simp [happ]),
      if_neg (not_lt.mpr hle)]
    cases hf : s.withdrawals.find? (fun w => w.campaign == data.campaign &&
        (w.status == WithdrawalStatus.pending ||
         w.status == WithdrawalStatus.approved)) with
    | none =>
      exfalso
      apply List.find?_eq_none.mp hf w hwmem
      rcases hwstat with hst | hst <;> simp [hwcamp, hst]
    | some x => rfl
  · intro hout s' h
    obtain ⟨-, -, hfind, rfl⟩ := createWithdrawalRequest_ok _ _ _ _ _ h
    intro cid hcid
    rw [List.filter_append]
    by_cases hcase : cid = data.campaign
    · subst hcase
      have hnil : s.withdrawals.filter
          (fun w => w.campaign == data.campaign && isOutstanding w) = [] := by
        rw [List.filter_eq_nil_iff]
        intro w hw
        have := List.find?_eq_none.mp hfind w hw
        simpa [isOutstanding] using this
      rw [hnil]
      simp [isOutstanding]
    · have hnil2 : List.filter
          (fun w => w.campaign == cid && isOutstanding w)
          [{ id := freshId, organizer := organizerId, campaign := data.campaign,
             amountRequested := data.amountRequested,
             status := WithdrawalStatus.pending, reviewedBy := none,
             adminMessage := none, paidAt := none,
             paymentReference := none }] = [] := by
        simp [Ne.symm hcase]
      rw [hnil2, List.append_nil]
      have hcid' : cid ∈ s.withdrawals.map WithdrawalRequest.campaign := by
        rw [List.map_append] at hcid
        rcases List.mem_append.mp hcid with hmem | hmem
        · exact hmem
        · exfalso; apply hcase; simpa using hmem
      exact hout cid hcid'

def c8c : Campaign :=
  { id := 4, owner := 1, title := "Well", description := none, images := [],
    target := 100, raised := 50, isApproved := true, isClosed := false,
    closedReason := none }

def c8w : WithdrawalRequest :=
  { id := 7, organizer := 1, campaign := 4, amountRequested := 10,
    status := WithdrawalStatus.pending, reviewedBy := none,
    adminMessage := none, paidAt := none, paymentReference := none }

def c8st : St :=
  { users := [], campaigns := [c8c], donations := [], withdrawals := [c8w],
    applications := [], now := 0 }

def c8data : CreateWithdrawalData :=
  { campaign := 4, amountRequested := 20, payoutMethod := "bank" }

theorem createWithdrawalRequest_spec_witness :
    createWithdrawalRequest c8st 1 c8data 9 = Except.error
      ("You already have a pending or approved withdrawal request for this campaign") :=
  (createWithdrawalRequest_spec c8st 1 c8data 9).2.1 c8c c8w (by rfl) (by rfl)
    (by rfl) (by decide) (by decide) (by decide) (by decide) (by rfl)
    (Or.inl rfl)

/-! ## C3: raised tracks the completed-donation sum (amended) -/

/-- Contribution of one donation to campaign `cid`: its amount if it is a
completed donation of that campaign, and 0 otherwise. -/
def contrib (cid : Id) (d : Donation) : Money :=
  if d.campaign = cid ∧ d.status = DonationStatus.completed then d.amount else 0

/-- Sum of the amounts of the completed donations of campaign `cid`. -/
def donTotal (l : List Donation) (cid : Id) : Money :=
  (l.map (contrib cid)).sum

theorem map_ite_id_of_ne (donationId : Id) (f : Donation → Donation)
    (l : List Donation) (h : ∀ x ∈ l, x.id ≠ donationId) :
    l.map (fun x => if x.id = donationId then f x else x) = l := by
  apply map_eq_self_of
  intro x hx
  rw [if_neg (h x hx)]

/-- Updating the status of the donation found by id changes the
completed-donation sum of each campaign by exactly the contribution delta
of that donation (unique ids). -/
theorem donTotal_update (l : List Donation) (did : Id) (d : Donation)
    (st : DonationStatus)
    (hfind : l.find? (fun x => x.id == did) = some d)
    (hnd : (l.map Donation.id).Nodup) (cid : Id) :
    donTotal (l.map (fun x =>
        if x.id = did then { x with status := st } else x)) cid
      = donTotal l cid - contrib cid d + contrib cid { d with status := st } := by
  obtain ⟨l1, l2, rfl, hpd, hl1⟩ := find?_split _ l d hfind
  have hdid : d.id = did := by simpa using hpd
  have hl1' : ∀ x ∈ l1, x.id ≠ did := fun x hx => by simpa using hl1 x hx
  have hl2' : ∀ x ∈ l2, x.id ≠ did := by
    rw [List.map_append, List.map_cons] at hnd
    obtain ⟨-, h2, -⟩ := List.nodup_append.mp hnd
    have hnotin := (List.nodup_cons.mp h2).1
    intro x hx hxeq
    apply hnotin
    have hxm : x.id ∈ l2.map Donation.id := List.mem_map_of_mem _ hx
    rwa [hxeq, ← hdid] at hxm
  rw [List.map_append, List.map_cons]
  rw [map_ite_id_of_ne did _ l1 hl1', map_ite_id_of_ne did _ l2 hl2']
  rw [if_pos hdid]
  unfold donTotal
  rw [List.map_append, List.map_cons, List.sum_append, List.sum_cons,
      List.map_append, List.map_cons, List.sum_append, List.sum_cons]
  ring

/-- C3 (amended): if before the call `raised` equals the
completed-donation sum (with nonnegative amounts and unique donation
ids), then after any accepted `updateDonationStatus` transition OTHER
than one leaving `completed` for `pending` the equality still holds.
The source applies no debit on a completed→pending transition, so that
one transition, which the endpoint accepts, breaks the invariant
(see the counterexample). -/
theorem updateDonationStatus_preserves_raised_sum (s s' : St)
    (donationId : Id) (st : DonationStatus) (d : Donation)
    (hfind : s.findDonation donationId = some d)
    (h : updateDonationStatus s donationId st = Except.ok s')
    (hnd : (s.donations.map Donation.id).Nodup)
    (hamt : ∀ x ∈ s.donations, 0 ≤ x.amount)
    (hnp : ¬(d.status = DonationStatus.completed ∧ st = DonationStatus.pending))
    (hinv : ∀ c ∈ s.campaigns, c.raised = donTotal s.donations c.id) :
    ∀ c ∈ s'.campaigns, c.raised = donTotal s'.donations c.id := by
  obtain ⟨d0, hd0, rfl⟩ := updateDonationStatus_ok _ _ _ _ h
  rw [hfind] at hd0
  injection hd0 with he
  subst he
  have hfindL : s.donations.find? (fun x => x.id == donationId) = some d := hfind
  have hsum := donTotal_update s.donations donationId d st hfindL hnd
  have hdmem : d ∈ s.donations := List.mem_of_find?_eq_some hfindL
  intro c' hc'
  dsimp only at hc' ⊢
  split at hc'
  next hA =>
    obtain ⟨c, hc, rfl⟩ := List.mem_map.mp hc'
    by_cases hcid : c.id = d.campaign
    · rw [if_pos hcid]
      rw [hsum c.id, hinv c hc]
      have h1 : contrib c.id d = 0 := by simp [contrib, hA.2]
      have h2 : contrib c.id { d with status := st } = d.amount := by
        simp [contrib, hA.1, hcid.symm]
      rw [h1, h2]
      ring
    · rw [if_neg hcid]
      rw [hsum c.id, hinv c hc]
      have h1 : contrib c.id d = contrib c.id { d with status := st } := by
        simp [contrib, Ne.symm hcid]
      rw [← h1]
      ring
  next hA =>
    split at hc'
    next hB =>
      obtain ⟨c, hc, rfl⟩ := List.mem_map.mp hc'
      by_cases hcid : c.id = d.campaign
      · rw [if_pos hcid]
        rw [hsum c.id]
        have h1 : contrib c.id d = d.amount := by
          simp [contrib, hB.2, hcid.symm]
        have h2 : contrib c.id { d with status := st } = 0 := by
          simp [contrib, hB.1]
        rw [h1, h2, hinv c hc]
        have hle : d.amount ≤ donTotal s.donations c.id := by
          have hnn : ∀ x ∈ s.donations.map (contrib c.id), 0 ≤ x := by
            intro x hx
            obtain ⟨y, hy, rfl⟩ := List.mem_map.mp hx
            unfold contrib
            split
            · exact hamt y hy
            · exact le_refl 0
          have hmem : contrib c.id d ∈ s.donations.map (contrib c.id) :=
            List.mem_map_of_mem _ hdmem
          have hs := List.single_le_sum hnn _ hmem
          rw [h1] at hs
          exact hs
        rw [max_eq_right (by linarith)]
        ring
      · rw [if_neg hcid]
        rw [hsum c.id, hinv c hc]
        have h1 : contrib c.id d = contrib c.id { d with status := st } := by
          simp [contrib, Ne.symm hcid]
        rw [← h1]
        ring
    next hB =>
      rw [hsum c'.id, hinv c' hc']
      have h1 : contrib c'.id { d with status := st } = contrib c'.id d := by
        unfold contrib
        cases st with
        | completed =>
          have hds : d.status = DonationStatus.completed := by
            by_contra hne
            exact hA ⟨rfl, hne⟩
          simp [hds]
        | failed =>
          have hds : d.status ≠ DonationStatus.completed := by
            intro hds
            exact hB ⟨rfl, hds⟩
          simp [hds]
        | pending =>
          have hds : d.status ≠ DonationStatus.completed := by
            intro hds
            exact hnp ⟨hds, rfl⟩
          simp [hds]
      rw [h1]
      ring

def c3xd : Donation :=
  { id := 1, campaign := 1, donor := 2, amount := 5,
    status := DonationStatus.completed }

def c3xCamp : Campaign :=
  { id := 1, owner := 3, title := "t", description := none, images := [],
    target := 10, raised := 5, isApproved := true, isClosed := false,
    closedReason := none }

def c3xS0 : St :=
  { users := [], campaigns := [c3xCamp], donations := [c3xd],
    withdrawals := [], applications := [], now := 0 }

def c3xS1 : St :=
  { c3xS0 with donations :=
      [{ id := 1, campaign := 1, donor := 2, amount := 5,
         status := DonationStatus.pending }] }

/-- C3 counterexample: a completed donation of amount 5 on a campaign
with `raised = 5` (so the invariant holds) transitions completed→pending;
the call is accepted, applies no debit, and afterwards `raised = 5` while
the completed-donation sum is 0. -/
theorem updateDonationStatus_sum_counterexample :
    updateDonationStatus c3xS0 1 DonationStatus.pending = Except.ok c3xS1 ∧
    c3xS1.campaigns = [c3xCamp] ∧
    c3xCamp.raised = donTotal c3xS0.donations c3xCamp.id ∧
    c3xCamp.raised ≠ donTotal c3xS1.donations c3xCamp.id := by
  refine ⟨by rfl, by rfl, ?_, ?_⟩
  · norm_num [donTotal, contrib, c3xS0, c3xd, c3xCamp]
  · norm_num [donTotal, contrib, c3xS1, c3xCamp]
    decide

def c3wd : Donation :=
  { id := 1, campaign := 1, donor := 2, amount := 5,
    status := DonationStatus.pending }

def c3wCamp : Campaign :=
  { id := 1, owner := 3, title := "t", description := none, images := [],
    target := 10, raised := 0, isApproved := true, isClosed := false,
    closedReason := none }

def c3wS0 : St :=
  { users := [], campaigns := [c3wCamp], donations := [c3wd],
    withdrawals := [], applications := [], now := 0 }

def c3wS1 : St :=
  { c3wS0 with donations :=
      [{ id := 1, campaign := 1, donor := 2, amount := 5,
         status := DonationStatus.failed }] }

theorem updateDonationStatus_preserves_raised_sum_witness :
    c3wCamp.raised = donTotal c3wS1.donations c3wCamp.id := by
  have h := updateDonationStatus_preserves_raised_sum c3wS0 c3wS1 1
    DonationStatus.failed c3wd (by rfl) (by rfl) (by decide) (by decide)
    (by decide)
    (by
      intro c hc
      have hc' : c = c3wCamp := by simpa [c3wS0] using hc
      subst hc'
      norm_num [donTotal, contrib, c3wS0, c3wd, c3wCamp]
      decide)
  exact h c3wCamp (List.mem_singleton.mpr rfl)

/-! ## C7: when donation processing may touch raised (amended) -/

/-- C7 (amended): `createDonation` never changes any campaign (in
particular never increases `raised`) and can never succeed against an
unapproved or closed campaign; but the approved-and-open gate is enforced
only at creation time: `updateDonationStatus`, when completing a
non-completed donation, credits the campaign of the donation by its
amount regardless of the `isApproved`/`isClosed` flags of that campaign
at credit time (see the counterexample: a closed campaign is credited). -/
theorem donation_credit_gating (s : St) (donorId : Id)
    (data : CreateDonationData) (freshId : Id) :
    (∀ s', createDonation s donorId data freshId = Except.ok s' →
      s'.campaigns = s.campaigns) ∧
    (∀ c, s.findCampaign data.campaign = some c →
      (c.isApproved = false ∨ c.isClosed = true) →
      ∀ s', createDonation s donorId data freshId ≠ Except.ok s') ∧
    (∀ donationId d s', s.findDonation donationId = some d →
      d.status ≠ DonationStatus.completed →
      updateDonationStatus s donationId DonationStatus.completed =
        Except.ok s' →
      List.Forall₂ (fun c c' =>
        if c.id = d.campaign then
          c' = { c with raised := c.raised + d.amount }
        else c' = c) s.campaigns s'.campaigns) := by
  refine ⟨?_, ?_, ?_⟩
  · intro s' h
    obtain ⟨-, -, rfl⟩ := createDonation_ok _ _ _ _ _ h
    rfl
  · intro c hc hbad s' hok
    obtain ⟨-, ⟨c2, hc2, happ, hclosed⟩, -⟩ := createDonation_ok _ _ _ _ _ hok
    rw [hc] at hc2
    injection hc2 with he
    subst he
    rcases hbad with hbad | hbad
    · rw [happ] at hbad
      exact absurd hbad (by simp)
    · rw [hclosed] at hbad
      exact absurd hbad (by simp)
  · intro donationId d s' hfind hne hok
    obtain ⟨d0, hd0, rfl⟩ := updateDonationStatus_ok _ _ _ _ hok
    rw [hfind] at hd0
    injection hd0 with he
    subst he
    dsimp only
    rw [if_pos ⟨rfl, hne⟩]
    exact forall2_ite_update _ _ _

def c7camp : Campaign :=
  { id := 1, owner := 3, title := "t", description := none, images := [],
    target := 10, raised := 0, isApproved := true, isClosed := true,
    closedReason := none }

def c7campAfter : Campaign :=
  { id := 1, owner := 3, title := "t", description := none, images := [],
    target := 10, raised := 0 + 5, isApproved := true, isClosed := true,
    closedReason := none }

def c7d : Donation :=
  { id := 1, campaign := 1, donor := 2, amount := 5,
    status := DonationStatus.pending }

def c7S0 : St :=
  { users := [], campaigns := [c7camp], donations := [c7d],
    withdrawals := [], applications := [], now := 0 }

def c7S1 : St :=
  { c7S0 with
    campaigns := [c7campAfter],
    donations :=
      [{ id := 1, campaign := 1, donor := 2, amount := 5,
         status := DonationStatus.completed }] }

/-- C7 counterexample: completing a pending donation of a CLOSED campaign
is accepted and increases the `raised` of that campaign — the claim that
no `updateDonationStatus` call increases the raised of a closed or
unapproved campaign is false on the code. -/
theorem donation_credit_closed_counterexample :
    c7camp.isApproved = true ∧ c7camp.isClosed = true ∧
    updateDonationStatus c7S0 1 DonationStatus.completed = Except.ok c7S1 ∧
    c7S0.campaigns = [c7camp] ∧ c7S1.campaigns = [c7campAfter] ∧
    c7camp.raised < c7campAfter.raised := by
  refine ⟨rfl, rfl, by rfl, rfl, rfl, ?_⟩
  norm_num [c7camp, c7campAfter]

def c7aCamp : Campaign :=
  { id := 1, owner := 3, title := "t", description := none, images := [],
    target := 10, raised := 0, isApproved := true, isClosed := false,
    closedReason := none }

def c7aData : CreateDonationData :=
  { campaign := 1, amount := 5, method := DonationMethod.paypal,
    donorEmail := "a@b.c" }

def c7aS0 : St :=
  { users := [], campaigns := [c7aCamp], donations := [], withdrawals := [],
    applications := [], now := 0 }

def c7aS1 : St :=
  { c7aS0 with donations :=
      [{ id := 9, campaign := 1, donor := 2, amount := 5,
         status := DonationStatus.pending }] }

theorem donation_credit_gating_witness :
    c7aS1.campaigns = c7aS0.campaigns := by
  have hmail : emailOk ("a@b.c") = true := by decide
  have h : createDonation c7aS0 2 c7aData 9 = Except.ok c7aS1 := by
    norm_num [createDonation, c7aData, hmail]
    rfl
  exact (donation_credit_gating c7aS0 2 c7aData 9).1 c7aS1 h

end Hope
